import Mathlib

/-!
Verification of the WindAlerts weather-monitoring service (`main.go`).

The Go program is embedded shallowly:
* `float64` gust values and thresholds become `ℚ` (the program only compares,
  maximises and formats finite values, where IEEE order agrees with `ℚ`);
* `time.Time` instants become `ℤ` unix seconds (`time.Unix(dt, 0)`,
  `t.After u ↔ u < t`, `t.Before u ↔ t < u`);
* environment access becomes an explicit `String → String` map
  (`os.Getenv`, unset variables read as `""`);
* fallible Go functions returning `(..., error)` become `Except String _`.
-/

namespace WindAlerts

set_option maxRecDepth 40000

/-- `WindGustForecast` from `main.go`: the time of a forecast point with a
strong gust (unix seconds of `time.Unix(forecast.Dt, 0)`) and the gust value. -/
structure WindGustForecast where
  Time : ℤ
  WindGust : ℚ
deriving DecidableEq

/-- The anonymous `Main` struct of `DailyForecast` (`main.go`): temperature. -/
structure MainInfo where
  Temp : ℚ
deriving DecidableEq

/-- The anonymous `Wind` struct of `DailyForecast` (`main.go`): speed and gust. -/
structure WindInfo where
  Speed : ℚ
  Gust : ℚ
deriving DecidableEq

/-- `WeatherDesc` from `main.go`. -/
structure WeatherDesc where
  Main : String
  Description : String
deriving DecidableEq

/-- `DailyForecast` from `main.go`: one forecast point of the API response. -/
structure DailyForecast where
  Dt : ℤ
  Main : MainInfo
  Wind : WindInfo
  Weather : List WeatherDesc
deriving DecidableEq

/-- `WeatherResponse` from `main.go`: the list of forecast points. -/
structure WeatherResponse where
  List : List DailyForecast
deriving DecidableEq

/-- `Config` from `main.go`. -/
structure Config where
  OpenWeatherAPIKey : String
  City : String
  EmailFrom : String
  EmailTo : List String
  SMTPServer : String
  SMTPPort : String
  SMTPUser : String
  SMTPPassword : String
  WindGustThreshold : ℚ
  NotificationHour : ℤ
  NotificationMin : ℤ
deriving DecidableEq

/-- `EmailData` from `main.go`: the data fed to both e-mail templates. -/
structure EmailData where
  MaxWindGust : ℚ
  WindGustThreshold : ℚ
deriving DecidableEq

/-- Model of Go's `unicode.IsSpace` (the white space property of
`strings.TrimSpace`): ASCII white space plus the Unicode space characters. -/
def go_isSpace (c : Char) : Bool :=
  c = '\t' ∨ c = '\n' ∨ c = (Char.ofNat 11) ∨ c = (Char.ofNat 12) ∨ c = '\r' ∨ c = ' ' ∨
    c = (Char.ofNat 0x85) ∨ c = (Char.ofNat 0xA0) ∨ c = (Char.ofNat 0x1680) ∨
    (Char.ofNat 0x2000 ≤ c ∧ c ≤ Char.ofNat 0x200A) ∨ c = (Char.ofNat 0x2028) ∨
    c = (Char.ofNat 0x2029) ∨ c = (Char.ofNat 0x202F) ∨ c = (Char.ofNat 0x205F) ∨
    c = (Char.ofNat 0x3000)

/-- Leading white space removal, on the character list of a string. -/
def trimLeft (l : List Char) : List Char :=
  l.dropWhile go_isSpace

/-- Trailing white space removal, on the character list of a string. -/
def trimRight (l : List Char) : List Char :=
  (l.reverse.dropWhile go_isSpace).reverse

/-- Character-list version of Go's `strings.TrimSpace`. -/
def trimSpace (l : List Char) : List Char :=
  trimRight (trimLeft l)

/-- Model of Go's `strings.TrimSpace`. -/
def go_TrimSpace (s : String) : String :=
  String.mk (trimSpace s.toList)

/-- Model of Go's `strings.Split` with a one-character separator: `"a,,b"`
splits to `["a", "", "b"]` and `""` splits to `[""]`. -/
def splitOnChar (sep : Char) : List Char → List (List Char)
  | [] => [[]]
  | c :: rest =>
    let r := splitOnChar sep rest
    if c = sep then [] :: r
    else
      match r with
      | [] => [[c]]
      | h :: t => (c :: h) :: t

/-- The natural number denoted by a list of decimal digit characters. -/
def digitsVal (l : List Char) : ℕ :=
  l.foldl (fun a c => 10 * a + (c.toNat - 48)) 0

/-- Model of Go's `strconv.Atoi`: an optional sign followed by at least one
decimal digit (the word-size overflow check is not modelled; no claim
involves it). -/
def go_Atoi (s : String) : Option ℤ :=
  match s.toList with
  | [] => none
  | '+' :: r => if r ≠ [] ∧ r.all Char.isDigit then some (digitsVal r) else none
  | '-' :: r => if r ≠ [] ∧ r.all Char.isDigit then some (-(digitsVal r : ℤ)) else none
  | l => if l.all Char.isDigit then some (digitsVal l) else none

/-- Model of Go's `strconv.ParseFloat` restricted to plain decimal forms
(optional sign, digits, optional fraction): exponent, hexadecimal and
inf/NaN forms are not modelled, and the value is kept exact in `ℚ` rather
than rounded to binary; no claim depends on those inputs. -/
def go_ParseFloat (s : String) : Option ℚ :=
  let withSign : ℚ × List Char :=
    match s.toList with
    | '+' :: r => (1, r)
    | '-' :: r => (-1, r)
    | l => (1, l)
  let ip := withSign.2.takeWhile Char.isDigit
  let r1 := withSign.2.dropWhile Char.isDigit
  match r1 with
  | [] => if ip = [] then none else some (withSign.1 * digitsVal ip)
  | '.' :: r2 =>
    let fp := r2.takeWhile Char.isDigit
    let r3 := r2.dropWhile Char.isDigit
    if ip = [] ∧ fp = [] then none
    else
      match r3 with
      | [] =>
        some (withSign.1 * ((digitsVal ip : ℚ) + (digitsVal fp : ℚ) / (10 : ℚ) ^ fp.length))
      | _ => none
  | _ => none

/-- The `EMAIL_TO` parsing block of `loadConfig` (`main.go` lines 207-233):
for a non-empty value, split on `","` when a comma is present, otherwise on
`";"` when a semicolon is present, otherwise keep the whole string; trim each
entry; drop the empty entries. -/
def parseEmailTo (emailToStr : String) : List String :=
  let l := emailToStr.toList
  if l = [] then []
  else
    let parts :=
      if l.any (fun c => c = ',') then splitOnChar ',' l
      else if l.any (fun c => c = ';') then splitOnChar ';' l
      else [l]
    let trimmed := parts.map trimSpace
    (trimmed.filter (fun e => e ≠ [])).map String.mk

/-- The required-field checks of `loadConfig` (`main.go` lines 279-293), in
source order: API key, city, non-empty recipient list, SMTP server and port. -/
def validateConfig (config : Config) : Except String Config :=
  if config.OpenWeatherAPIKey = "" then
    Except.error "не указан API ключ для OpenWeatherMap"
  else if config.City = "" then
    Except.error "не указан город для проверки погоды"
  else if config.EmailTo = [] then
    Except.error "не указаны адреса получателей"
  else if config.SMTPServer = "" ∨ config.SMTPPort = "" then
    Except.error "не указаны настройки SMTP сервера"
  else Except.ok config

/-- `loadConfig` from `main.go` (lines 201-294), with the environment passed
explicitly (`os.Getenv`; an unset variable reads as `""`, and the `.env`
loading only populates that same environment).  Threshold and notification
time fall back to their defaults (`15.0`, `9`, `0`) on parse failure or an
out-of-range value; the required-field checks then run in the order of the
source. -/
def loadConfig (env : String → String) : Except String Config :=
  let emailTo := parseEmailTo (env "EMAIL_TO")
  let windGustThreshold : ℚ :=
    if env "WIND_GUST_THRESHOLD" ≠ "" then
      match go_ParseFloat (env "WIND_GUST_THRESHOLD") with
      | some val => val
      | none => 15
    else 15
  let notificationHour : ℤ :=
    if env "NOTIFICATION_HOUR" ≠ "" then
      match go_Atoi (env "NOTIFICATION_HOUR") with
      | some val => if 0 ≤ val ∧ val < 24 then val else 9
      | none => 9
    else 9
  let notificationMin : ℤ :=
    if env "NOTIFICATION_MIN" ≠ "" then
      match go_Atoi (env "NOTIFICATION_MIN") with
      | some val => if 0 ≤ val ∧ val < 60 then val else 0
      | none => 0
    else 0
  let config : Config :=
    Config.mk (env "OPENWEATHER_API_KEY") (env "CITY") (env "EMAIL_FROM") emailTo
      (env "SMTP_SERVER") (env "SMTP_PORT") (env "SMTP_USER") (env "SMTP_PASSWORD")
      windGustThreshold notificationHour notificationMin
  validateConfig config

/-- `checkWeatherForTheDay` from `main.go` (lines 415-451).  The Go code takes
`startOfDay` from `time.Now()`; here the unix second of local midnight is an
explicit parameter.  The loop keeps the flag `exceedsThreshold` and the slice
`forecasts`, appending a `WindGustForecast` and setting the flag whenever the
point's time satisfies `forecastTime.After(startOfDay)` and
`forecastTime.Before(endOfDay)` (both strict) and `windGust > threshold`. -/
def checkWeatherForTheDay (startOfDay : ℤ) (weatherData : WeatherResponse)
    (threshold : ℚ) : Bool × List WindGustForecast :=
  let endOfDay := startOfDay + 19 * 3600
  weatherData.List.foldl
    (fun acc forecast =>
      if startOfDay < forecast.Dt ∧ forecast.Dt < endOfDay then
        if threshold < forecast.Wind.Gust then
          (true, acc.2 ++ [WindGustForecast.mk forecast.Dt forecast.Wind.Gust])
        else acc
      else acc)
    (false, [])

/-- `findMaxWindGust` from `main.go` (lines 454-467): `0` on the empty list,
otherwise a running maximum started from the first element's gust and folded
over the whole list (`if forecast.WindGust > max` is strict). -/
def findMaxWindGust (forecasts : List WindGustForecast) : ℚ :=
  match forecasts with
  | [] => 0
  | f0 :: _ =>
    forecasts.foldl (fun mx f => if mx < f.WindGust then f.WindGust else mx) f0.WindGust

/-- The daytime-window membership test exactly as `checkWeatherForTheDay`
performs it: `forecastTime.After(startOfDay) && forecastTime.Before(endOfDay)`
with `endOfDay = startOfDay + 19h`, i.e. the open interval. -/
def inDaytimeWindow (startOfDay t : ℤ) : Prop :=
  startOfDay < t ∧ t < startOfDay + 19 * 3600

/-- Modelled from the spec: the spec's daytime window
`[startOfDay, startOfDay+19h)`, half-open, with the left endpoint included.
Stated separately from `inDaytimeWindow` (the code's test) so the two can be
compared. -/
def specDaytimeWindow (startOfDay t : ℤ) : Prop :=
  startOfDay ≤ t ∧ t < startOfDay + 19 * 3600

/-- The qualification test of the loop body of `checkWeatherForTheDay`,
as a boolean on one forecast point. -/
def qualifies (startOfDay : ℤ) (threshold : ℚ) (f : DailyForecast) : Bool :=
  decide (startOfDay < f.Dt) && decide (f.Dt < startOfDay + 19 * 3600) &&
    decide (threshold < f.Wind.Gust)

/-- The `WindGustForecast` built for a qualifying point. -/
def mkWGF (f : DailyForecast) : WindGustForecast :=
  WindGustForecast.mk f.Dt f.Wind.Gust

/-- The startup immediate-check condition of `main` (`main.go` line 572):
`now.Hour() == config.NotificationHour && now.Minute() >= config.NotificationMin
&& now.Minute() < config.NotificationMin+5`, on the local hour and minute of
the current time. -/
def startupImmediateCheck (notificationHour notificationMin nowHour nowMin : ℤ) : Bool :=
  decide (nowHour = notificationHour) && decide (notificationMin ≤ nowMin) &&
    decide (nowMin < notificationMin + 5)

/-- Modelled from the spec: "the current time falls within a short window
(five minutes) after the configured time" — membership of the current time in
the five-minute window after the configured `HH:MM`, as minutes-of-day
arithmetic (which crosses an hour boundary when `notificationMin > 55`). -/
def inFiveMinuteWindow (notificationHour notificationMin nowHour nowMin : ℤ) : Prop :=
  notificationHour * 60 + notificationMin ≤ nowHour * 60 + nowMin ∧
    nowHour * 60 + nowMin < notificationHour * 60 + notificationMin + 5

/-- The concrete environment of the C5 counterexample: the API key, city,
recipient list, SMTP server and port are set; the sender address and the SMTP
user and password are empty. -/
def envNoSender : String → String := fun v =>
  if v = "OPENWEATHER_API_KEY" then "key"
  else if v = "CITY" then "Moscow"
  else if v = "EMAIL_TO" then "a@x.com"
  else if v = "SMTP_SERVER" then "smtp.example.com"
  else if v = "SMTP_PORT" then "25"
  else ""

/-- Literal chunk 0 of the HTML template text. -/
def htmlChunk0 : String := "<!DOCTYPE html>\n<html lang=\"ru\">\n<head>\n    <meta charset=\"UTF-8\">\n    <meta name=\"viewport\" content=\"width=device-width, initial-scale=1.0\">\n    <title>Уведомление о погоде</title>\n    <!--[if mso]>\n"

/-- Literal chunk 1 of the HTML template text. -/
def htmlChunk1 : String := "    <style type=\"text/css\">\n        table, td "

/-- Literal chunk 2 of the HTML template text. -/
def htmlChunk2 : String := "order-collapse: collapse; mso-table-lspace: 0pt; mso-table-rspace: 0pt;\x7d\n        .container "

/-- Literal chunk 3 of the HTML template text. -/
def htmlChunk3 : String := "idth: 600px;\x7d\n    </style>\n    <![endif]-->\n    <style>\n        body "

/-- Literal chunk 4 of the HTML template text. -/
def htmlChunk4 : String := "            font-family: Arial, sans-serif;\n            background-color: #f4f4f4;\n            margin: 0;\n            padding: 0;\n        \x7d\n        .main-table "

/-- Literal chunk 5 of the HTML template text. -/
def htmlChunk5 : String := "            width: 100%;\n            background-color: #f4f4f4;\n        \x7d\n        .container "

/-- Literal chunk 6 of the HTML template text. -/
def htmlChunk6 : String := "            width: 600px;\n            max-width: 600px;\n            margin: 0 auto;\n            background-color: #ffffff;\n            border-radius: 8px;\n            box-shadow: 0 0 10px rgba(0, 0, 0"

/-- Literal chunk 7 of the HTML template text. -/
def htmlChunk7 : String := ", 0.1);\n        \x7d\n        .content "

/-- Literal chunk 8 of the HTML template text. -/
def htmlChunk8 : String := "            padding: 20px;\n        \x7d\n        h1 "

/-- Literal chunk 9 of the HTML template text. -/
def htmlChunk9 : String := "            color: #d9534f;\n            font-size: 24px;\n            text-align: center;\n            margin-top: 0;\n            margin-bottom: 20px;\n        \x7d\n        p "

/-- Literal chunk 10 of the HTML template text. -/
def htmlChunk10 : String := "            font-size: 16px;\n            line-height: 1.5;\n            color: #333333;\n            margin-top: 0;\n            margin-bottom: 15px;\n        \x7d\n        .highlight "

/-- Literal chunk 11 of the HTML template text. -/
def htmlChunk11 : String := "            font-weight: bold;\n            color: #d9534f;\n        \x7d\n        .footer "

/-- Literal chunk 12 of the HTML template text. -/
def htmlChunk12 : String := "            margin-top: 20px;\n            font-size: 14px;\n            color: #777777;\n            text-align: center;\n        \x7d\n        @media only screen and (max-width: 600px) "

/-- Literal chunk 13 of the HTML template text. -/
def htmlChunk13 : String := "            .container "

/-- Literal chunk 14 of the HTML template text. -/
def htmlChunk14 : String := "                width: 100% !important;\n                max-width: 100% !important;\n            \x7d\n            .content "

/-- Literal chunk 15 of the HTML template text. -/
def htmlChunk15 : String := "                padding: 10px !important;\n            \x7d\n            h1 "

/-- Literal chunk 16 of the HTML template text. -/
def htmlChunk16 : String := "                font-size: 20px !important;\n            \x7d\n            p "

/-- Literal chunk 17 of the HTML template text. -/
def htmlChunk17 : String := "                font-size: 14px !important;\n            \x7d\n        \x7d\n    </style>\n</head>\n<body style=\"margin: 0; padding: 0; background-color: #f4f4f4;\">\n    <!--[if mso]>\n    <table border=\"0\" cellpa"

/-- Literal chunk 18 of the HTML template text. -/
def htmlChunk18 : String := "dding=\"0\" cellspacing=\"0\" width=\"100%\" bgcolor=\"#f4f4f4\">\n    <tr>\n    <td align=\"center\">\n    <table border=\"0\" cellpadding=\"0\" cellspacing=\"0\" width=\"600\" class=\"container\">\n    <![endif]-->\n    \n  "

/-- Literal chunk 19 of the HTML template text. -/
def htmlChunk19 : String := "  <table border=\"0\" cellpadding=\"0\" cellspacing=\"0\" width=\"100%\" class=\"main-table\" bgcolor=\"#f4f4f4\" style=\"background-color: #f4f4f4;\">\n        <tr>\n            <td align=\"center\" style=\"padding: 20"

/-- Literal chunk 20 of the HTML template text. -/
def htmlChunk20 : String := "px 0;\">\n                <table border=\"0\" cellpadding=\"0\" cellspacing=\"0\" width=\"600\" class=\"container\" style=\"background-color: #ffffff; border-radius: 8px; box-shadow: 0 0 10px rgba(0, 0, 0, 0.1); m"

/-- Literal chunk 21 of the HTML template text. -/
def htmlChunk21 : String := "ax-width: 600px; width: 100%;\">\n                    <tr>\n                        <td class=\"content\" style=\"padding: 20px;\">\n                            <h1 style=\"color: #d9534f; font-size: 24px; tex"

/-- Literal chunk 22 of the HTML template text. -/
def htmlChunk22 : String := "t-align: center; margin-top: 0; margin-bottom: 20px;\">Внимание!</h1>\n                            <p style=\"font-size: 16px; line-height: 1.5; color: #333333; margin-top: 0; margin-bottom: 15px;\">Сегод"

/-- Literal chunk 23 of the HTML template text. -/
def htmlChunk23 : String := "ня ожидаются <span class=\"highlight\" style=\"font-weight: bold; color: #d9534f;\">сильные порывы ветра ("

/-- Literal chunk 24 of the HTML template text. -/
def htmlChunk24 : String := " м/с)</span>, что превышает безопасный порог (<span class=\"highlight\" style=\"font-weight: bold; color: #d9534f;\">"

/-- Literal chunk 25 of the HTML template text. -/
def htmlChunk25 : String := " м/с</span>).</p>\n                            <p style=\"font-size: 16px; line-height: 1.5; color: #333333; margin-top: 0; margin-bottom: 15px;\">Рекомендуется <span class=\"highlight\" style=\"font-weight"

/-- Literal chunk 26 of the HTML template text. -/
def htmlChunk26 : String := ": bold; color: #d9534f;\">не открывать окна в офисе</span> в течение дня.</p>\n                            <div class=\"footer\" style=\"margin-top: 20px; font-size: 14px; color: #777777; text-align: cente"

/-- Literal chunk 27 of the HTML template text. -/
def htmlChunk27 : String := "r;\">\n                                <p style=\"font-size: 14px; line-height: 1.5; color: #777777; margin-top: 0; margin-bottom: 15px;\">Это автоматическое уведомление от системы мониторинга погоды.</p>"

/-- Literal chunk 28 of the HTML template text. -/
def htmlChunk28 : String := "\n                            </div>\n                        </td>\n                    </tr>\n                </table>\n            </td>\n        </tr>\n    </table>\n    \n    <!--[if mso]>\n    </table>\n  "

/-- Literal chunk 29 of the HTML template text. -/
def htmlChunk29 : String := "  </td>\n    </tr>\n    </table>\n    <![endif]-->\n</body>\n</html>"

/-- `emailHTMLTemplateText` from `main.go` (lines 49-158), verbatim (braces
written with character escapes).  The constant is written as a concatenation
of literal pieces, in source order, purely so that the parsing lemmas below
can walk it one piece at a time; the concatenated value is exactly the
source constant. -/
def emailHTMLTemplateText : String :=
  htmlChunk0 ++ (htmlChunk1 ++ ("\x7bb" ++ (htmlChunk2 ++ ("\x7bw" ++ (htmlChunk3 ++ ("\x7b\n" ++ (htmlChunk4 ++ ("\x7b\n" ++ (htmlChunk5 ++ ("\x7b\n" ++ (htmlChunk6 ++ (htmlChunk7 ++ ("\x7b\n" ++ (htmlChunk8 ++ ("\x7b\n" ++ (htmlChunk9 ++ ("\x7b\n" ++ (htmlChunk10 ++ ("\x7b\n" ++ (htmlChunk11 ++ ("\x7b\n" ++ (htmlChunk12 ++ ("\x7b\n" ++ (htmlChunk13 ++ ("\x7b\n" ++ (htmlChunk14 ++ ("\x7b\n" ++ (htmlChunk15 ++ ("\x7b\n" ++ (htmlChunk16 ++ ("\x7b\n" ++ (htmlChunk17 ++ (htmlChunk18 ++ (htmlChunk19 ++ (htmlChunk20 ++ (htmlChunk21 ++ (htmlChunk22 ++ (htmlChunk23 ++ ("\x7b\x7b" ++ ("printf \"%.2f\" .MaxWindGust" ++ ("\x7d\x7d" ++ (htmlChunk24 ++ ("\x7b\x7b" ++ ("printf \"%.2f\" .WindGustThreshold" ++ ("\x7d\x7d" ++ (htmlChunk25 ++ (htmlChunk26 ++ (htmlChunk27 ++ (htmlChunk28 ++ (htmlChunk29))))))))))))))))))))))))))))))))))))))))))))))))))

/-- `emailPlainTextTemplate` from `main.go` (lines 161-167), verbatim (braces
written with character escapes). -/
def emailPlainTextTemplate : String := "Внимание!\n\nСегодня ожидаются сильные порывы ветра (\x7b\x7bprintf \"%.2f\" .MaxWindGust\x7d\x7d м/с), что превышает безопасный порог (\x7b\x7bprintf \"%.2f\" .WindGustThreshold\x7d\x7d м/с).\n\nРекомендуется не открывать окна в офисе в течение дня.\n\nЭто автоматическое уведомление от системы мониторинга погоды."

/-- A parsed node of a `text/template` template: literal text, or the
contents of an action delimited by double braces. -/
inductive TmplNode where
  | lit : List Char → TmplNode
  | action : List Char → TmplNode
deriving DecidableEq

/-- State of the template scanner: in literal text, in literal text having
just read one opening brace, inside an action, or inside an action having
just read one closing brace. -/
inductive PMode where
  | lit
  | litBrace
  | act
  | actBrace
deriving DecidableEq

/-- The opening-brace character. -/
def lbrace : Char := Char.ofNat 123

/-- The closing-brace character. -/
def rbrace : Char := Char.ofNat 125

/-- Append the pending literal text (accumulated in reverse) as a node,
unless it is empty. -/
def flushLit (cur : List Char) (nodes : List TmplNode) : List TmplNode :=
  if cur = [] then nodes else nodes ++ [TmplNode.lit cur.reverse]

/-- Character-by-character template scanner: a double opening brace enters an
action, a double closing brace closes it; everything else is accumulated (the
pending text `cur` in reverse).  A trailing single opening brace is literal
text; ending inside an action is a parse error. -/
def parseAux : PMode → List Char → List TmplNode → List Char → Except String (List TmplNode)
  | PMode.lit, cur, nodes, [] => Except.ok (flushLit cur nodes)
  | PMode.litBrace, cur, nodes, [] => Except.ok (flushLit (lbrace :: cur) nodes)
  | PMode.act, _, _, [] => Except.error "unclosed action"
  | PMode.actBrace, _, _, [] => Except.error "unclosed action"
  | PMode.lit, cur, nodes, c :: rest =>
    if c = lbrace then parseAux PMode.litBrace cur nodes rest
    else parseAux PMode.lit (c :: cur) nodes rest
  | PMode.litBrace, cur, nodes, c :: rest =>
    if c = lbrace then parseAux PMode.act [] (flushLit cur nodes) rest
    else parseAux PMode.lit (c :: lbrace :: cur) nodes rest
  | PMode.act, cur, nodes, c :: rest =>
    if c = rbrace then parseAux PMode.actBrace cur nodes rest
    else parseAux PMode.act (c :: cur) nodes rest
  | PMode.actBrace, cur, nodes, c :: rest =>
    if c = rbrace then parseAux PMode.lit [] (nodes ++ [TmplNode.action cur.reverse]) rest
    else parseAux PMode.act (c :: rbrace :: cur) nodes rest

/-- Modelled from Go's `text/template` `Parse` (an external library),
restricted to the constructs these templates use: literal text and actions
delimited by double braces; an unclosed action is a parse error.  This is the
behaviour of `template.New(...).Parse(...)` on the two constant templates. -/
def parseNodes (t : List Char) : Except String (List TmplNode) :=
  parseAux PMode.lit [] [] t

/-- The decimal digit character for `n < 10`. -/
def digitChar (n : ℕ) : Char := Char.ofNat (48 + n)

/-- Decimal digit characters of `n`, most significant first, with explicit
fuel so the definition is structural. -/
def natDigsAux : ℕ → ℕ → List Char
  | 0, _ => []
  | fuel + 1, n =>
    if n < 10 then [digitChar n] else natDigsAux fuel (n / 10) ++ [digitChar (n % 10)]

/-- Decimal representation of a natural number. -/
def natRepr (n : ℕ) : List Char := natDigsAux (n + 1) n

/-- Modelled from Go's `fmt`/`strconv` rendering of a `float64` with the verb
`%.2f` (an external library), on the exact `ℚ` value: optional minus sign, the
decimal integer part, a dot, and exactly two fractional digits, after rounding
the magnitude to a whole number `c` of hundredths
(`c = round (|x| * 100) = (200 * |num x| + den x) / (2 * den x)` by integer
division, written in the latter form so it evaluates). -/
def fmt2 (x : ℚ) : String :=
  let c : ℤ := (200 * (x.num.natAbs : ℤ) + (x.den : ℤ)) / (2 * (x.den : ℤ))
  let ip : ℕ := (c / 100).toNat
  let fp : ℕ := (c % 100).toNat
  String.mk (((if x < 0 then ['-'] else []) ++ natRepr ip) ++
    ('.' :: [digitChar (fp / 10), digitChar (fp % 10)]))

/-- The contents of the first action of both templates:
`printf "%.2f" .MaxWindGust`. -/
def actMax : List Char := "printf \"%.2f\" .MaxWindGust".toList

/-- The contents of the second action of both templates:
`printf "%.2f" .WindGustThreshold`. -/
def actThr : List Char := "printf \"%.2f\" .WindGustThreshold".toList

/-- Modelled from Go's `text/template` `Execute` (an external library) on one
action, for the `EmailData` argument of `generateEmailBodies`: the two actions
occurring in the templates render the corresponding field with `%.2f`; any
other action is an execution error. -/
def execAction (a : List Char) (d : EmailData) : Except String (List Char) :=
  if a = actMax then Except.ok (fmt2 d.MaxWindGust).toList
  else if a = actThr then Except.ok (fmt2 d.WindGustThreshold).toList
  else Except.error "can not evaluate action"

/-- Modelled from Go's `text/template` `Execute`: write literal nodes
verbatim and action results in order, failing at the first failing action. -/
def execNodes (d : EmailData) : List TmplNode → Except String (List Char)
  | [] => Except.ok []
  | TmplNode.lit s :: rest =>
    match execNodes d rest with
    | Except.error e => Except.error e
    | Except.ok out => Except.ok (s ++ out)
  | TmplNode.action a :: rest =>
    match execAction a d with
    | Except.error e => Except.error e
    | Except.ok s =>
      match execNodes d rest with
      | Except.error e => Except.error e
      | Except.ok out => Except.ok (s ++ out)

/-- `template.New(...).Parse(t)` followed by `Execute` on `data`, as
`generateEmailBodies` performs for each of its two templates. -/
def renderTemplate (t : String) (data : EmailData) : Except String String :=
  match parseNodes t.toList with
  | Except.error e => Except.error e
  | Except.ok nodes =>
    match execNodes data nodes with
    | Except.error e => Except.error e
    | Except.ok out => Except.ok (String.mk out)

/-- `generateEmailBodies` from `main.go` (lines 470-499): parse and execute
the HTML template, then the plain-text template, propagating the first error;
on success return the two bodies. -/
def generateEmailBodies (maxWindGust windGustThreshold : ℚ) :
    Except String (String × String) :=
  let data := EmailData.mk maxWindGust windGustThreshold
  match renderTemplate emailHTMLTemplateText data with
  | Except.error e => Except.error e
  | Except.ok htmlBody =>
    match renderTemplate emailPlainTextTemplate data with
    | Except.error e => Except.error e
    | Except.ok plainTextBody => Except.ok (htmlBody, plainTextBody)

/-- An action whose contents `execAction` can evaluate. -/
def knownAction (a : List Char) : Bool :=
  decide (a = actMax) || decide (a = actThr)

/-- All actions of a node list are known. -/
def allActionsKnown (ns : List TmplNode) : Bool :=
  ns.all fun n =>
    match n with
    | TmplNode.lit _ => true
    | TmplNode.action a => knownAction a

/-- A node list contains the action `a`. -/
def hasAction (a : List Char) (ns : List TmplNode) : Bool :=
  ns.any fun n => decide (n = TmplNode.action a)

/-- The template parses and all its actions are known. -/
def templateActionsOk (t : String) : Bool :=
  match parseNodes t.toList with
  | Except.ok ns => allActionsKnown ns
  | Except.error _ => false

/-- The template parses and contains the action `a`. -/
def templateHasAction (t : String) (a : List Char) : Bool :=
  match parseNodes t.toList with
  | Except.ok ns => hasAction a ns
  | Except.error _ => false

theorem check_loop (startOfDay : ℤ) (threshold : ℚ) :
    ∀ (xs : List DailyForecast) (b : Bool) (acc : List WindGustForecast),
      xs.foldl
        (fun acc forecast =>
          if startOfDay < forecast.Dt ∧ forecast.Dt < startOfDay + 19 * 3600 then
            if threshold < forecast.Wind.Gust then
              (true, acc.2 ++ [WindGustForecast.mk forecast.Dt forecast.Wind.Gust])
            else acc
          else acc)
        (b, acc)
      = (b || xs.any (qualifies startOfDay threshold),
         acc ++ (xs.filter (qualifies startOfDay threshold)).map mkWGF) := by
  intro xs
  induction xs with
  | nil => intro b acc; simp
  | cons x xs ih =>
    intro b acc
    simp only [List.foldl_cons]
    by_cases h1 : startOfDay < x.Dt ∧ x.Dt < startOfDay + 19 * 3600
    · by_cases h2 : threshold < x.Wind.Gust
      · have hq : qualifies startOfDay threshold x = true := by
          simp only [qualifies, Bool.and_eq_true, decide_eq_true_eq]
          exact ⟨⟨h1.1, h1.2⟩, h2⟩
        rw [if_pos h1, if_pos h2,
          ih true (acc ++ [WindGustForecast.mk x.Dt x.Wind.Gust])]
        simp only [List.any_cons, hq, Bool.true_or, Bool.or_true, List.filter_cons,
          if_pos, List.map_cons]
        simp [mkWGF, List.append_assoc]
      · have hq : qualifies startOfDay threshold x = false := by
          rw [Bool.eq_false_iff]
          intro hc
          simp only [qualifies, Bool.and_eq_true, decide_eq_true_eq] at hc
          exact h2 hc.2
        rw [if_pos h1, if_neg h2, ih b acc]
        simp [List.any_cons, List.filter_cons, hq]
    · have hq : qualifies startOfDay threshold x = false := by
        rw [Bool.eq_false_iff]
        intro hc
        simp only [qualifies, Bool.and_eq_true, decide_eq_true_eq] at hc
        exact h1 hc.1
      rw [if_neg h1, ih b acc]
      simp [List.any_cons, List.filter_cons, hq]

/-- Closed form of the evaluator: the flag is `List.any` of the qualification
test, the slice is the qualifying points filtered in order. -/
theorem checkWeatherForTheDay_eq (startOfDay : ℤ) (weatherData : WeatherResponse)
    (threshold : ℚ) :
    checkWeatherForTheDay startOfDay weatherData threshold
      = (weatherData.List.any (qualifies startOfDay threshold),
         (weatherData.List.filter (qualifies startOfDay threshold)).map mkWGF) := by
  unfold checkWeatherForTheDay
  simpa using check_loop startOfDay threshold weatherData.List false []

theorem findMax_loop :
    ∀ (l : List WindGustForecast) (a : ℚ),
      a ≤ l.foldl (fun mx f => if mx < f.WindGust then f.WindGust else mx) a
      ∧ (l.foldl (fun mx f => if mx < f.WindGust then f.WindGust else mx) a = a
          ∨ l.foldl (fun mx f => if mx < f.WindGust then f.WindGust else mx) a
              ∈ l.map WindGustForecast.WindGust)
      ∧ ∀ f ∈ l,
          f.WindGust ≤ l.foldl (fun mx f => if mx < f.WindGust then f.WindGust else mx) a := by
  intro l
  induction l with
  | nil => intro a; simp
  | cons f l ih =>
    intro a
    simp only [List.foldl_cons]
    set a' := if a < f.WindGust then f.WindGust else a with ha'
    obtain ⟨ih1, ih2, ih3⟩ := ih a'
    have haa' : a ≤ a' := by
      rw [ha']; split
      · exact le_of_lt (by assumption)
      · exact le_rfl
    have hfa' : f.WindGust ≤ a' := by
      rw [ha']; split
      · exact le_rfl
      · exact le_of_not_lt (by assumption)
    refine ⟨le_trans haa' ih1, ?_, ?_⟩
    · rcases ih2 with h | h
      · rw [ha'] at h
        by_cases hlt : a < f.WindGust
        · right; rw [h, if_pos hlt]; simp
        · left; rw [h, if_neg hlt]
      · right; simp only [List.map_cons, List.mem_cons]; right; exact h
    · intro g hg
      rcases List.mem_cons.mp hg with rfl | hg'
      · exact le_trans hfa' ih1
      · exact ih3 g hg'

theorem trimRight_eq_rdropWhile (l : List Char) :
    trimRight l = List.rdropWhile go_isSpace l := rfl

theorem trimSpace_idem (l : List Char) : trimSpace (trimSpace l) = trimSpace l := by
  unfold trimSpace trimLeft
  set m := List.dropWhile go_isSpace l with hm
  have h1 : List.dropWhile go_isSpace m = m := List.dropWhile_idempotent go_isSpace l
  have h2 : List.dropWhile go_isSpace (trimRight m) = trimRight m := by
    rcases hpre : trimRight m with _ | ⟨c, t⟩
    · simp
    · have hpref : trimRight m <+: m := by
        rw [trimRight_eq_rdropWhile]; exact List.rdropWhile_prefix go_isSpace m
      rw [hpre] at hpref
      obtain ⟨rest, hrest⟩ := hpref
      have hc : go_isSpace c = false := by
        by_contra hcc
        have hc' : go_isSpace c = true := by revert hcc; cases go_isSpace c <;> simp
        rw [← hrest, List.cons_append] at h1
        rw [List.dropWhile_cons_of_pos hc'] at h1
        have hlen := congrArg List.length h1
        have hle := List.Sublist.length_le (List.dropWhile_sublist (l := t ++ rest) go_isSpace)
        simp only [List.length_cons] at hlen
        omega
      exact List.dropWhile_cons_of_neg (by simp [hc])
  rw [h2, trimRight_eq_rdropWhile, trimRight_eq_rdropWhile,
    List.rdropWhile_idempotent]

/-- C8: recipient-list parsing splits on commas (or semicolons), trims white
space from each entry and drops empty entries: the two concrete inputs of the
claim parse as stated, and in general every returned entry is non-empty and
already trimmed. -/
theorem C8_parseEmailTo_correct :
    parseEmailTo "a@x.com, b@x.com" = ["a@x.com", "b@x.com"]
    ∧ parseEmailTo "a@x.com,,  " = ["a@x.com"]
    ∧ (∀ (s : String), ∀ e ∈ parseEmailTo s, e ≠ "" ∧ go_TrimSpace e = e) := by
  refine ⟨by decide, by decide, ?_⟩
  intro s e he
  simp only [parseEmailTo] at he
  split at he
  · exact absurd he (List.not_mem_nil e)
  · simp only [List.mem_map, List.mem_filter] at he
    obtain ⟨x, ⟨⟨y, hy, rfl⟩, hxne⟩, rfl⟩ := he
    replace hxne : trimSpace y ≠ [] := by simpa using hxne
    constructor
    · intro h
      exact hxne (by simpa using congrArg String.data h)
    · show String.mk (trimSpace (String.mk (trimSpace y)).toList) = String.mk (trimSpace y)
      exact congrArg String.mk (trimSpace_idem y)

theorem C8_witness :
    "a@x.com" ≠ "" ∧ go_TrimSpace "a@x.com" = "a@x.com" :=
  C8_parseEmailTo_correct.2.2 "a@x.com, b@x.com" "a@x.com" (by decide)

theorem validateConfig_ok_iff (config : Config) :
    (∃ c, validateConfig config = Except.ok c)
      ↔ (config.OpenWeatherAPIKey ≠ "" ∧ config.City ≠ "" ∧ config.EmailTo ≠ []
          ∧ config.SMTPServer ≠ "" ∧ config.SMTPPort ≠ "") := by
  unfold validateConfig
  split_ifs with h1 h2 h3 h4
  · simp [h1]
  · simp [h1, h2]
  · simp [h3]
  · rcases h4 with h | h
    · simp [h]
    · simp [h]
  · have h5 := not_or.mp h4
    simp [h1, h2, h3, h5.1, h5.2]

/-- C5, counterexample: `loadConfig` succeeds on an environment whose sender
address (`EMAIL_FROM`) and SMTP credentials (`SMTP_USER`, `SMTP_PASSWORD`) are
all empty, refuting the claim that configuration loading fails whenever any of
those required fields is empty. -/
theorem C5_unvalidated_fields_cex :
    (∃ c, loadConfig envNoSender = Except.ok c)
    ∧ envNoSender "EMAIL_FROM" = ""
    ∧ envNoSender "SMTP_USER" = ""
    ∧ envNoSender "SMTP_PASSWORD" = "" :=
  ⟨⟨_, rfl⟩, rfl, rfl, rfl⟩

/-- C5, amended: `loadConfig` succeeds iff the API key, the city, the parsed
recipient list, the SMTP server and the SMTP port are all non-empty; the
sender address and the SMTP user/password are NOT validated.  (On failure
`main` still terminates with non-zero status via `log.Fatalf`, as claimed.) -/
theorem C5_amended_required_fields (env : String → String) :
    (∃ c, loadConfig env = Except.ok c)
      ↔ (env "OPENWEATHER_API_KEY" ≠ "" ∧ env "CITY" ≠ ""
          ∧ parseEmailTo (env "EMAIL_TO") ≠ []
          ∧ env "SMTP_SERVER" ≠ "" ∧ env "SMTP_PORT" ≠ "") := by
  unfold loadConfig
  exact validateConfig_ok_iff _

theorem C5_amended_witness : ∃ c, loadConfig envNoSender = Except.ok c :=
  (C5_amended_required_fields envNoSender).mpr (by decide)

theorem toList_append_eq (a b : String) : (a ++ b).toList = a.toList ++ b.toList := rfl

/-- Scanning a brace-free literal chunk in literal mode accumulates it. -/
theorem scan_lit (l : List Char) (h : ∀ c ∈ l, c ≠ lbrace) :
    ∀ (cur : List Char) (nodes : List TmplNode) (rest : List Char),
      parseAux PMode.lit cur nodes (l ++ rest)
        = parseAux PMode.lit (l.reverse ++ cur) nodes rest := by
  induction l with
  | nil => intro cur nodes rest; simp
  | cons c t ih =>
    intro cur nodes rest
    have hc : ¬(c = lbrace) := h c (List.mem_cons_self c t)
    have ht : ∀ x ∈ t, x ≠ lbrace := fun x hx => h x (List.mem_cons_of_mem c hx)
    show parseAux PMode.lit cur nodes (c :: (t ++ rest)) = _
    rw [parseAux, if_neg hc, ih ht (c :: cur) nodes rest]
    simp

/-- A single opening brace followed by a non-brace character is scanned as
literal text. -/
theorem scan_brace (c : Char) (hc : c ≠ lbrace) (cur : List Char)
    (nodes : List TmplNode) (rest : List Char) :
    parseAux PMode.lit cur nodes (lbrace :: c :: rest)
      = parseAux PMode.lit (c :: lbrace :: cur) nodes rest := by
  rw [parseAux, if_pos rfl, parseAux, if_neg hc]

/-- Scanning the contents of an action up to its double closing brace. -/
theorem scan_act (a : List Char) (h : ∀ c ∈ a, c ≠ rbrace) :
    ∀ (cur : List Char) (nodes : List TmplNode) (rest : List Char),
      parseAux PMode.act cur nodes (a ++ (rbrace :: rbrace :: rest))
        = parseAux PMode.lit [] (nodes ++ [TmplNode.action (cur.reverse ++ a)]) rest := by
  induction a with
  | nil =>
    intro cur nodes rest
    show parseAux PMode.act cur nodes (rbrace :: rbrace :: rest) = _
    rw [parseAux, if_pos rfl, parseAux, if_pos rfl]
    simp
  | cons c t ih =>
    intro cur nodes rest
    have hc : ¬(c = rbrace) := h c (List.mem_cons_self c t)
    have ht : ∀ x ∈ t, x ≠ rbrace := fun x hx => h x (List.mem_cons_of_mem c hx)
    show parseAux PMode.act cur nodes (c :: (t ++ (rbrace :: rbrace :: rest))) = _
    rw [parseAux, if_neg hc, ih ht (c :: cur) nodes rest]
    simp

/-- A complete double-brace action is scanned into an `action` node, flushing
the pending literal text first. -/
theorem scan_action (a : List Char) (h : ∀ c ∈ a, c ≠ rbrace) (cur : List Char)
    (nodes : List TmplNode) (rest : List Char) :
    parseAux PMode.lit cur nodes (lbrace :: lbrace :: (a ++ (rbrace :: rbrace :: rest)))
      = parseAux PMode.lit [] (flushLit cur nodes ++ [TmplNode.action a]) rest := by
  rw [parseAux, if_pos rfl, parseAux, if_pos rfl, scan_act a h]
  simp

/-- Scanning a final brace-free literal chunk ends the parse. -/
theorem scan_lit_end (l : List Char) (h : ∀ c ∈ l, c ≠ lbrace) (cur : List Char)
    (nodes : List TmplNode) :
    parseAux PMode.lit cur nodes l
      = Except.ok (flushLit (l.reverse ++ cur) nodes) := by
  have h0 := scan_lit l h cur nodes []
  rw [List.append_nil] at h0
  rw [h0, parseAux]

theorem key_of_parse {t : String} {ns : List TmplNode}
    (h1 : parseNodes t.toList = Except.ok ns)
    (h2 : allActionsKnown ns = true) (h3 : hasAction actMax ns = true)
    (h4 : hasAction actThr ns = true) :
    ∃ ns, parseNodes t.toList = Except.ok ns
      ∧ allActionsKnown ns = true ∧ hasAction actMax ns = true
      ∧ hasAction actThr ns = true :=
  ⟨ns, h1, h2, h3, h4⟩

theorem html_key :
    ∃ ns, parseNodes emailHTMLTemplateText.toList = Except.ok ns
      ∧ allActionsKnown ns = true ∧ hasAction actMax ns = true
      ∧ hasAction actThr ns = true := by
  apply key_of_parse
  · show parseNodes emailHTMLTemplateText.toList = _
    simp only [emailHTMLTemplateText, toList_append_eq]
    simp only [show ("\x7b\x7b" : String).toList = [lbrace, lbrace] from rfl,
      show ("\x7d\x7d" : String).toList = [rbrace, rbrace] from rfl,
      show ("printf \"%.2f\" .MaxWindGust" : String).toList = actMax from rfl,
      show ("printf \"%.2f\" .WindGustThreshold" : String).toList = actThr from rfl,
      show ("\x7b\n" : String).toList = [lbrace, '\n'] from rfl,
      show ("\x7bb" : String).toList = [lbrace, 'b'] from rfl,
      show ("\x7bw" : String).toList = [lbrace, 'w'] from rfl,
      List.cons_append, List.nil_append]
    unfold parseNodes
    rw [scan_lit htmlChunk0.toList (by decide),
      scan_lit htmlChunk1.toList (by decide),
      scan_brace 'b' (by decide)]
    rw [scan_lit htmlChunk2.toList (by decide),
      scan_brace 'w' (by decide),
      scan_lit htmlChunk3.toList (by decide)]
    rw [scan_brace '\n' (by decide),
      scan_lit htmlChunk4.toList (by decide),
      scan_brace '\n' (by decide)]
    rw [scan_lit htmlChunk5.toList (by decide),
      scan_brace '\n' (by decide),
      scan_lit htmlChunk6.toList (by decide)]
    rw [scan_lit htmlChunk7.toList (by decide),
      scan_brace '\n' (by decide),
      scan_lit htmlChunk8.toList (by decide)]
    rw [scan_brace '\n' (by decide),
      scan_lit htmlChunk9.toList (by decide),
      scan_brace '\n' (by decide)]
    rw [scan_lit htmlChunk10.toList (by decide),
      scan_brace '\n' (by decide),
      scan_lit htmlChunk11.toList (by decide)]
    rw [scan_brace '\n' (by decide),
      scan_lit htmlChunk12.toList (by decide),
      scan_brace '\n' (by decide)]
    rw [scan_lit htmlChunk13.toList (by decide),
      scan_brace '\n' (by decide),
      scan_lit htmlChunk14.toList (by decide)]
    rw [scan_brace '\n' (by decide),
      scan_lit htmlChunk15.toList (by decide),
      scan_brace '\n' (by decide)]
    rw [scan_lit htmlChunk16.toList (by decide),
      scan_brace '\n' (by decide),
      scan_lit htmlChunk17.toList (by decide)]
    rw [scan_lit htmlChunk18.toList (by decide),
      scan_lit htmlChunk19.toList (by decide),
      scan_lit htmlChunk20.toList (by decide)]
    rw [scan_lit htmlChunk21.toList (by decide),
      scan_lit htmlChunk22.toList (by decide),
      scan_lit htmlChunk23.toList (by decide)]
    rw [scan_action actMax (by decide),
      scan_lit htmlChunk24.toList (by decide),
      scan_action actThr (by decide)]
    rw [scan_lit htmlChunk25.toList (by decide),
      scan_lit htmlChunk26.toList (by decide),
      scan_lit htmlChunk27.toList (by decide)]
    rw [scan_lit htmlChunk28.toList (by decide),
      scan_lit_end htmlChunk29.toList (by decide)]
  · rfl
  · rfl
  · rfl


theorem text_key :
    ∃ ns, parseNodes emailPlainTextTemplate.toList = Except.ok ns
      ∧ allActionsKnown ns = true ∧ hasAction actMax ns = true
      ∧ hasAction actThr ns = true :=
  ⟨_, rfl, rfl, rfl, rfl⟩

theorem template_facts_of_key (t : String)
    (h : ∃ ns, parseNodes t.toList = Except.ok ns ∧ allActionsKnown ns = true
        ∧ hasAction actMax ns = true ∧ hasAction actThr ns = true) :
    templateActionsOk t = true ∧ templateHasAction t actMax = true
      ∧ templateHasAction t actThr = true := by
  obtain ⟨ns, h1, h2, h3, h4⟩ := h
  refine ⟨?_, ?_, ?_⟩ <;> simp only [templateActionsOk, templateHasAction, h1] <;> assumption

theorem html_actions_ok : templateActionsOk emailHTMLTemplateText = true :=
  (template_facts_of_key _ html_key).1

theorem html_has_actMax : templateHasAction emailHTMLTemplateText actMax = true :=
  (template_facts_of_key _ html_key).2.1

theorem html_has_actThr : templateHasAction emailHTMLTemplateText actThr = true :=
  (template_facts_of_key _ html_key).2.2

theorem text_actions_ok : templateActionsOk emailPlainTextTemplate = true :=
  (template_facts_of_key _ text_key).1

theorem text_has_actMax : templateHasAction emailPlainTextTemplate actMax = true :=
  (template_facts_of_key _ text_key).2.1

theorem text_has_actThr : templateHasAction emailPlainTextTemplate actThr = true :=
  (template_facts_of_key _ text_key).2.2

theorem execAction_actMax (d : EmailData) :
    execAction actMax d = Except.ok (fmt2 d.MaxWindGust).toList := rfl

theorem execAction_actThr (d : EmailData) :
    execAction actThr d = Except.ok (fmt2 d.WindGustThreshold).toList := rfl

theorem execAction_known (a : List Char) (d : EmailData) (h : knownAction a = true) :
    ∃ s, execAction a d = Except.ok s := by
  unfold knownAction at h
  rcases (Bool.or_eq_true _ _).mp h with h | h
  · have ha : a = actMax := of_decide_eq_true h
    exact ⟨_, ha ▸ execAction_actMax d⟩
  · have ha : a = actThr := of_decide_eq_true h
    exact ⟨_, ha ▸ execAction_actThr d⟩

theorem execNodes_ok (d : EmailData) :
    ∀ ns, allActionsKnown ns = true → ∃ out, execNodes d ns = Except.ok out := by
  intro ns
  induction ns with
  | nil => intro _; exact ⟨[], rfl⟩
  | cons n rest ih =>
    intro h
    rw [allActionsKnown, List.all_cons, Bool.and_eq_true] at h
    obtain ⟨out, hout⟩ := ih h.2
    cases n with
    | lit s => exact ⟨s ++ out, by simp only [execNodes, hout]⟩
    | action a =>
      obtain ⟨v, hv⟩ := execAction_known a d (by simpa using h.1)
      exact ⟨v ++ out, by simp only [execNodes, hv, hout]⟩

theorem execNodes_mem (d : EmailData) :
    ∀ ns out a s, execNodes d ns = Except.ok out → TmplNode.action a ∈ ns →
      execAction a d = Except.ok s → s <:+: out := by
  intro ns
  induction ns with
  | nil => intro out a s _ hm _; exact absurd hm (List.not_mem_nil _)
  | cons n rest ih =>
    intro out a s hout hm hs
    cases n with
    | lit L =>
      rcases hrest : execNodes d rest with e | r
      · simp only [execNodes, hrest] at hout
        simp at hout
      · simp only [execNodes, hrest] at hout
        have houteq : L ++ r = out := by injection hout
        have hm' : TmplNode.action a ∈ rest := by
          rcases List.mem_cons.mp hm with h | h
          · simp at h
          · exact h
        rw [← houteq]
        exact (ih r a s hrest hm' hs).trans (List.suffix_append L r).isInfix
    | action b =>
      rcases hact : execAction b d with e | v
      · simp only [execNodes, hact] at hout
        simp at hout
      · rcases hrest : execNodes d rest with e2 | r
        · simp only [execNodes, hact, hrest] at hout
          simp at hout
        · simp only [execNodes, hact, hrest] at hout
          have houteq : v ++ r = out := by injection hout
          rcases List.mem_cons.mp hm with hab | hm'
          · have hab' : a = b := by
              injection hab
            subst hab'
            rw [hact] at hs
            have hsv : v = s := by injection hs
            subst hsv
            rw [← houteq]
            exact (List.prefix_append v r).isInfix
          · rw [← houteq]
            exact (ih r a s hrest hm' hs).trans (List.suffix_append v r).isInfix

theorem hasAction_mem (a : List Char) (ns : List TmplNode) (h : hasAction a ns = true) :
    TmplNode.action a ∈ ns := by
  unfold hasAction at h
  rcases List.any_eq_true.mp h with ⟨n, hn, hna⟩
  rw [of_decide_eq_true hna] at hn
  exact hn

theorem renderTemplate_ok (t : String) (d : EmailData) (h : templateActionsOk t = true) :
    ∃ s, renderTemplate t d = Except.ok s := by
  unfold templateActionsOk at h
  rcases hp : parseNodes t.toList with e | ns
  · rw [hp] at h
    simp at h
  · rw [hp] at h
    have h2 : allActionsKnown ns = true := h
    obtain ⟨out, hout⟩ := execNodes_ok d ns h2
    exact ⟨String.mk out, by simp only [renderTemplate, hp, hout]⟩

theorem renderTemplate_contains (t : String) (d : EmailData) (a v : List Char) (s : String)
    (hha : templateHasAction t a = true) (hr : renderTemplate t d = Except.ok s)
    (hv : execAction a d = Except.ok v) : v <:+: s.toList := by
  unfold templateHasAction at hha
  rcases hp : parseNodes t.toList with e | ns
  · rw [hp] at hha
    simp at hha
  · rw [hp] at hha
    have hmem := hasAction_mem a ns hha
    simp only [renderTemplate, hp] at hr
    rcases he : execNodes d ns with e2 | out
    · rw [he] at hr
      simp at hr
    · rw [he] at hr
      have hr' : String.mk out = s := by
        injection hr
      have hinf := execNodes_mem d ns out a v he hmem hv
      rw [← hr']
      exact hinf

/-- C1: for every threshold `T` and forecast sequence, the `exceeds` flag of
`checkWeatherForTheDay` is `true` iff at least one point whose timestamp lies
in the current day's daytime window (the window test the code performs) has a
wind-gust value strictly greater than `T` (strict `>`, not `>=`). -/
theorem C1_exceeds_iff_strictly_above (startOfDay : ℤ) (wd : WeatherResponse) (T : ℚ) :
    (checkWeatherForTheDay startOfDay wd T).1 = true
      ↔ ∃ f, f ∈ wd.List ∧ inDaytimeWindow startOfDay f.Dt ∧ T < f.Wind.Gust := by
  rw [checkWeatherForTheDay_eq]
  simp [List.any_eq_true, qualifies, inDaytimeWindow, and_assoc]

/-- C2, counterexample: a point whose timestamp equals `startOfDay` (here both
are `0`), with gust `100` far above the threshold `0`, lies in the spec's
half-open window `[startOfDay, startOfDay+19h)` yet is NOT included:
`checkWeatherForTheDay` returns `(false, [])`, refuting the claim that a point
at `startOfDay` is included. -/
theorem C2_left_endpoint_cex :
    specDaytimeWindow 0 0
    ∧ (0 : ℚ) < 100
    ∧ checkWeatherForTheDay 0
        (WeatherResponse.mk [DailyForecast.mk 0 (MainInfo.mk 0) (WindInfo.mk 0 100) []]) 0
        = (false, []) := by
  refine ⟨⟨le_refl 0, by norm_num⟩, by norm_num, by decide⟩

/-- C2, amended: the daytime-window membership test of `checkWeatherForTheDay`
is the OPEN interval `(startOfDay, startOfDay + 19h)`: a point whose timestamp
equals `startOfDay` is excluded (as is one at `startOfDay + 19h`); a point
strictly between, with gust strictly above the threshold, is selected. -/
theorem C2_amended_open_interval (startOfDay : ℤ) (T : ℚ) (wd : WeatherResponse)
    (f : DailyForecast) (hf : f ∈ wd.List) :
    mkWGF f ∈ (checkWeatherForTheDay startOfDay wd T).2
      ↔ (startOfDay < f.Dt ∧ f.Dt < startOfDay + 19 * 3600 ∧ T < f.Wind.Gust) := by
  rw [checkWeatherForTheDay_eq]
  simp only [List.mem_map, List.mem_filter]
  constructor
  · rintro ⟨g, ⟨hgmem, hgq⟩, hEq⟩
    simp only [qualifies, Bool.and_eq_true, decide_eq_true_eq] at hgq
    rw [show g.Dt = f.Dt from congrArg WindGustForecast.Time hEq,
      show g.Wind.Gust = f.Wind.Gust from congrArg WindGustForecast.WindGust hEq] at hgq
    exact ⟨hgq.1.1, hgq.1.2, hgq.2⟩
  · rintro ⟨h1, h2, h3⟩
    refine ⟨f, ⟨hf, ?_⟩, rfl⟩
    simp only [qualifies, Bool.and_eq_true, decide_eq_true_eq]
    exact ⟨⟨h1, h2⟩, h3⟩

theorem C2_amended_witness :
    mkWGF (DailyForecast.mk 100 (MainInfo.mk 0) (WindInfo.mk 0 50) [])
      ∈ (checkWeatherForTheDay 0
          (WeatherResponse.mk [DailyForecast.mk 100 (MainInfo.mk 0) (WindInfo.mk 0 50) []])
          0).2 :=
  (C2_amended_open_interval 0 0
      (WeatherResponse.mk [DailyForecast.mk 100 (MainInfo.mk 0) (WindInfo.mk 0 50) []])
      (DailyForecast.mk 100 (MainInfo.mk 0) (WindInfo.mk 0 50) [])
      (by simp)).mpr (by norm_num)

/-- C3: `findMaxWindGust` returns the true maximum of its entries' gust values
(an upper bound that is attained when the list is non-empty); on the empty
list it returns `0`, and when the evaluator's qualifying list is empty its
`exceeds` flag is `false`. -/
theorem C3_findMaxWindGust_correct :
    findMaxWindGust [] = 0
    ∧ (∀ l : List WindGustForecast, l ≠ [] →
        findMaxWindGust l ∈ l.map WindGustForecast.WindGust)
    ∧ (∀ l : List WindGustForecast, ∀ f ∈ l, f.WindGust ≤ findMaxWindGust l)
    ∧ (∀ (startOfDay : ℤ) (wd : WeatherResponse) (T : ℚ),
        (checkWeatherForTheDay startOfDay wd T).2 = [] →
        (checkWeatherForTheDay startOfDay wd T).1 = false) := by
  refine ⟨rfl, ?_, ?_, ?_⟩
  · intro l hl
    obtain ⟨f0, rest, rfl⟩ := List.exists_cons_of_ne_nil hl
    obtain ⟨h1, h2, h3⟩ := findMax_loop (f0 :: rest) f0.WindGust
    show (f0 :: rest).foldl (fun mx f => if mx < f.WindGust then f.WindGust else mx) f0.WindGust
        ∈ (f0 :: rest).map WindGustForecast.WindGust
    rcases h2 with h | h
    · rw [h]; simp
    · exact h
  · intro l f hf
    match l, hf with
    | f0 :: rest, hf =>
      obtain ⟨h1, h2, h3⟩ := findMax_loop (f0 :: rest) f0.WindGust
      exact h3 f hf
  · intro startOfDay wd T h2
    rw [checkWeatherForTheDay_eq] at h2 ⊢
    simp only [List.map_eq_nil_iff] at h2
    simp only [List.any_eq_false]
    intro f hf
    intro hq
    have : f ∈ wd.List.filter (qualifies startOfDay T) := List.mem_filter.mpr ⟨hf, hq⟩
    rw [h2] at this
    exact absurd this (List.not_mem_nil f)

theorem C3_witness :
    findMaxWindGust [WindGustForecast.mk 0 5, WindGustForecast.mk 3 7]
        ∈ [WindGustForecast.mk 0 5, WindGustForecast.mk 3 7].map WindGustForecast.WindGust
    ∧ (5 : ℚ) ≤ findMaxWindGust [WindGustForecast.mk 0 5, WindGustForecast.mk 3 7]
    ∧ (checkWeatherForTheDay 0 (WeatherResponse.mk []) 0).1 = false :=
  ⟨C3_findMaxWindGust_correct.2.1 [WindGustForecast.mk 0 5, WindGustForecast.mk 3 7]
      (by decide),
   C3_findMaxWindGust_correct.2.2.1 [WindGustForecast.mk 0 5, WindGustForecast.mk 3 7]
      (WindGustForecast.mk 0 5) (by decide),
   C3_findMaxWindGust_correct.2.2.2 0 (WeatherResponse.mk []) 0 (by decide)⟩

/-- C6: the qualifying subsequence produced by `checkWeatherForTheDay` is
exactly the in-window, above-threshold points of the input, in the input's
order (a filter of the input), and in particular an ordered subsequence
(sublist) of the input's points. -/
theorem C6_ordered_subsequence (startOfDay : ℤ) (wd : WeatherResponse) (T : ℚ) :
    (checkWeatherForTheDay startOfDay wd T).2
        = (wd.List.filter (qualifies startOfDay T)).map mkWGF
    ∧ (checkWeatherForTheDay startOfDay wd T).2.Sublist (wd.List.map mkWGF) := by
  rw [checkWeatherForTheDay_eq]
  exact ⟨rfl, (List.filter_sublist _).map mkWGF⟩

/-- C9: the two results of `checkWeatherForTheDay` are coupled: the `exceeds`
flag is `true` iff the returned `WindGustForecast` list is non-empty. -/
theorem C9_flag_iff_nonempty (startOfDay : ℤ) (wd : WeatherResponse) (T : ℚ) :
    (checkWeatherForTheDay startOfDay wd T).1 = true
      ↔ (checkWeatherForTheDay startOfDay wd T).2 ≠ [] := by
  rw [checkWeatherForTheDay_eq]
  simp only [List.any_eq_true, ne_eq, List.map_eq_nil_iff, List.filter_eq_nil_iff]
  push_neg
  constructor
  · rintro ⟨f, hf, hq⟩; exact ⟨f, hf, by simp [hq]⟩
  · rintro ⟨f, hf, hq⟩; exact ⟨f, hf, by simpa using hq⟩

/-- C4, counterexample: with the notification time configured to 09:58 the
five-minute window after it contains 10:01, yet the startup check of `main`
(which requires the current hour to equal the configured hour) does not fire,
refuting the claim for windows that cross an hour boundary. -/
theorem C4_hour_boundary_cex :
    startupImmediateCheck 9 58 10 1 = false
    ∧ inFiveMinuteWindow 9 58 10 1
    ∧ (0 : ℤ) ≤ 9 ∧ (9 : ℤ) < 24 ∧ (0 : ℤ) ≤ 58 ∧ (58 : ℤ) < 60
    ∧ (0 : ℤ) ≤ 10 ∧ (10 : ℤ) < 24 ∧ (0 : ℤ) ≤ 1 ∧ (1 : ℤ) < 60 := by
  refine ⟨by decide, ⟨by decide, by decide⟩, by decide, by decide, by decide, by decide,
    by decide, by decide, by decide, by decide⟩

/-- C4, amended: the immediate check on startup fires iff the current time is
in the five-minute window after the configured `HH:MM` AND the current hour
equals the configured hour; equivalently, whenever `MM + 5 ≤ 60` (the window
does not cross an hour boundary) it fires iff the current time is in the
window, but the part of a window that spills into the next hour never fires. -/
theorem C4_amended_same_hour_window (H M nh nm : ℤ)
    (hH0 : 0 ≤ H) (hH : H < 24) (hM0 : 0 ≤ M) (hM : M < 60)
    (hnh0 : 0 ≤ nh) (hnh : nh < 24) (hnm0 : 0 ≤ nm) (hnm : nm < 60) :
    (startupImmediateCheck H M nh nm = true ↔ (nh = H ∧ M ≤ nm ∧ nm < M + 5))
    ∧ (M + 5 ≤ 60 →
        (startupImmediateCheck H M nh nm = true ↔ inFiveMinuteWindow H M nh nm)) := by
  simp only [startupImmediateCheck, inFiveMinuteWindow, Bool.and_eq_true, decide_eq_true_eq]
  constructor
  · exact and_assoc
  · intro h5
    constructor
    · rintro ⟨⟨h1, h2⟩, h3⟩
      subst h1
      omega
    · rintro ⟨w1, w2⟩
      refine ⟨⟨?_, ?_⟩, ?_⟩ <;> omega

theorem C4_amended_witness :
    (startupImmediateCheck 9 0 9 3 = true ↔ ((9 : ℤ) = 9 ∧ (0 : ℤ) ≤ 3 ∧ (3 : ℤ) < 0 + 5))
    ∧ ((0 : ℤ) + 5 ≤ 60 →
        (startupImmediateCheck 9 0 9 3 = true ↔ inFiveMinuteWindow 9 0 9 3)) :=
  C4_amended_same_hour_window 9 0 9 3 (by decide) (by decide) (by decide) (by decide)
    (by decide) (by decide) (by decide) (by decide)

/-- C10: the Alert Composer's error branch is unreachable: for every pair of
values, `generateEmailBodies` returns a non-error result (both constant
templates parse, and executing them over `EmailData` cannot fail), so the
compose-error path of `checkWeatherAndAlert` is never taken. -/
theorem C10_composer_error_unreachable (mx thr : ℚ) :
    ∃ h t, generateEmailBodies mx thr = Except.ok (h, t) := by
  obtain ⟨hb, hh⟩ := renderTemplate_ok emailHTMLTemplateText (EmailData.mk mx thr) html_actions_ok
  obtain ⟨tb, ht⟩ := renderTemplate_ok emailPlainTextTemplate (EmailData.mk mx thr) text_actions_ok
  exact ⟨hb, tb, by simp only [generateEmailBodies, hh, ht]⟩

theorem digitChar_isDigit (n : ℕ) (h : n < 10) : (digitChar n).isDigit = true := by
  interval_cases n <;> decide

theorem natDigsAux_digits :
    ∀ (fuel n : ℕ), ∀ c ∈ natDigsAux fuel n, c.isDigit = true := by
  intro fuel
  induction fuel with
  | zero => intro n c hc; exact absurd hc (List.not_mem_nil c)
  | succ fuel ih =>
    intro n c hc
    rw [natDigsAux] at hc
    split at hc
    · next hn =>
      rw [List.mem_singleton] at hc
      subst hc
      exact digitChar_isDigit n hn
    · rcases List.mem_append.mp hc with h | h
      · exact ih (n / 10) c h
      · rw [List.mem_singleton] at h
        subst h
        exact digitChar_isDigit (n % 10) (Nat.mod_lt n (by norm_num))

/-- C7: both bodies produced by `generateEmailBodies` contain the two numeric
values rendered by `fmt2`, and `fmt2` always renders exactly two decimal
digits after the (unique) dot, regardless of magnitude; in particular `15`
renders as `"15.00"`. -/
theorem C7_two_decimal_rendering :
    (∀ x : ℚ, ∃ pre d1 d2,
        (fmt2 x).toList = pre ++ '.' :: [d1, d2]
        ∧ '.' ∉ pre ∧ d1.isDigit = true ∧ d2.isDigit = true)
    ∧ fmt2 15 = "15.00"
    ∧ (∀ mx thr : ℚ, ∃ h t,
        generateEmailBodies mx thr = Except.ok (h, t)
        ∧ (fmt2 mx).toList <:+: h.toList ∧ (fmt2 thr).toList <:+: h.toList
        ∧ (fmt2 mx).toList <:+: t.toList ∧ (fmt2 thr).toList <:+: t.toList) := by
  refine ⟨?_, by rfl, ?_⟩
  · intro x
    refine ⟨(if x < 0 then ['-'] else [])
        ++ natRepr (((200 * (x.num.natAbs : ℤ) + (x.den : ℤ)) / (2 * (x.den : ℤ)) / 100).toNat),
      digitChar ((((200 * (x.num.natAbs : ℤ) + (x.den : ℤ)) / (2 * (x.den : ℤ))) % 100).toNat / 10),
      digitChar ((((200 * (x.num.natAbs : ℤ) + (x.den : ℤ)) / (2 * (x.den : ℤ))) % 100).toNat % 10),
      rfl, ?_, ?_, ?_⟩
    · intro hmem
      rcases List.mem_append.mp hmem with h | h
      · revert h
        split
        · intro h
          rw [List.mem_singleton] at h
          exact absurd h (by decide)
        · intro h
          exact absurd h (List.not_mem_nil _)
      · have hd := natDigsAux_digits _ _ '.' h
        exact absurd hd (by decide)
    · exact digitChar_isDigit _ (by omega)
    · exact digitChar_isDigit _ (by omega)
  · intro mx thr
    obtain ⟨hb, hh⟩ :=
      renderTemplate_ok emailHTMLTemplateText (EmailData.mk mx thr) html_actions_ok
    obtain ⟨tb, ht⟩ :=
      renderTemplate_ok emailPlainTextTemplate (EmailData.mk mx thr) text_actions_ok
    refine ⟨hb, tb, by simp only [generateEmailBodies, hh, ht], ?_, ?_, ?_, ?_⟩
    · exact renderTemplate_contains _ _ _ _ _ html_has_actMax hh (execAction_actMax _)
    · exact renderTemplate_contains _ _ _ _ _ html_has_actThr hh (execAction_actThr _)
    · exact renderTemplate_contains _ _ _ _ _ text_has_actMax ht (execAction_actMax _)
    · exact renderTemplate_contains _ _ _ _ _ text_has_actThr ht (execAction_actThr _)

end WindAlerts
